import Mathlib

/-!
Shallow embedding of the press-detection and auto-calibration core of the
switch_interface repository (src/switch_interface/detection.py,
src/switch_interface/auto_calibration.py, and the historical variant
src/myproject/detection.py).

Samples and float parameters are modelled as rationals (ℚ); Python ints
(cooldown, refractory_samples) as ℤ or ℕ as the source dictates.  Blocks are
1-D by construction (List ℚ); the source's ndim check can therefore never
fire in the model.
-/

set_option linter.unusedVariables false

namespace SwitchInterface

/-- The `EdgeState` dataclass of detection.py: `armed`, `cooldown`,
`prev_sample`, `bias`.  `cooldown` is a Python int, modelled as ℤ.
The identical dataclass appears in both src/switch_interface/detection.py and
src/myproject/detection.py; it is shared here. -/
structure EdgeState where
  armed : Bool
  cooldown : ℤ
  prev_sample : ℚ
  bias : ℚ
deriving DecidableEq, Repr

/-- Arithmetic mean of a list of samples (`ndarray.mean()`); the source only
takes means of nonempty arrays on the paths exercised by the theorems (a
numpy mean of an empty array would be NaN). -/
def listMean (l : List ℚ) : ℚ :=
  l.sum / l.length

/-- Lines 43–45 of detection.py: `valid = block[block > state.bias + lower_offset]`,
then `state.bias = 0.99 * state.bias + 0.01 * float(valid.mean())` when
`valid.size` is nonzero.  This is the value written into `state.bias`. -/
def biasUpdate (block : List ℚ) (bias lower_offset : ℚ) : ℚ :=
  let valid := block.filter (fun s => bias + lower_offset < s)
  if valid.length ≠ 0 then
    (99 / 100) * bias + (1 / 100) * listMean valid
  else bias

/-- The cooldown-consuming while loops of detection.py
(`while cooldown > 0 and idx < len(block): cooldown -= 1; idx += 1`),
returning the final `(cooldown, idx)`.  The fuel is the number of admissible
`idx` increments, `(len(block) - idx₀).toNat`, so the fuel-out case is exactly
the loop's `idx < len(block)` exit. -/
def cdLoop (cooldown idx : ℤ) : ℕ → ℤ × ℤ
  | 0 => (cooldown, idx)
  | fuel + 1 =>
    if 0 < cooldown then cdLoop (cooldown - 1) (idx + 1) fuel
    else (cooldown, idx)

/-- `crossings[j]` of detection.py line 63 over `samples = [prev_sample] ++ block`:
`samples[j] >= dyn_upper and samples[j+1] <= dyn_lower`. -/
def crossingAt (samples : List ℚ) (dynUpper dynLower : ℚ) (j : ℕ) : Bool :=
  decide (dynUpper ≤ samples.getD j 0) && decide (samples.getD (j + 1) 0 ≤ dynLower)

/-- `np.flatnonzero(crossings[start:])` first hit: the least `j ≥ start`,
`j < n`, with `crossings[j]`; `idxs[0] + start` of the source is then this `j`. -/
def firstCrossingFrom (samples : List ℚ) (dynUpper dynLower : ℚ) (n start : ℕ) :
    Option ℕ :=
  ((List.range n).drop start).find? (crossingAt samples dynUpper dynLower)

/-- Lines 69–87 of detection.py: the press search and pre-press cooldown
bookkeeping, returning `(armed, cooldown, press_index)`.  While armed, the
press is the first crossing; while unarmed, the cooldown is consumed by the
`idx = cooldown` while loop and re-arming needs `cooldown == 0 and idx > 0
and block[idx - 1] >= dyn_upper`, after which the search restarts at
`crossings[idx:]`. -/
def pressSearch (block : List ℚ) (prev : ℚ) (dynUpper dynLower : ℚ)
    (armed : Bool) (cooldown : ℤ) : Bool × ℤ × Option ℕ :=
  let n : ℕ := block.length
  let samples := prev :: block
  if armed then
    (true, cooldown, firstCrossingFrom samples dynUpper dynLower n 0)
  else
    if (n : ℤ) ≤ cooldown then
      (false, cooldown - n, none)
    else
      let ci := cdLoop cooldown cooldown ((n : ℤ) - cooldown).toNat
      if ci.1 = 0 ∧ 0 < ci.2 ∧ dynUpper ≤ block.getD (ci.2 - 1).toNat 0 then
        (true, ci.1, firstCrossingFrom samples dynUpper dynLower n ci.2.toNat)
      else
        (false, ci.1, none)

/-- Lines 89–99 of detection.py: on a press, disarm, start the refractory
period, consume it against the rest of the block, and re-arm when it empties
with `block[idx - 1] >= dyn_upper`. -/
def afterPress (block : List ℚ) (dynUpper : ℚ) (refractory_samples : ℤ) :
    Option ℕ → Bool × ℤ → Bool × ℤ
  | none, ac => ac
  | some p, _ =>
    let ci := cdLoop refractory_samples (p + 1) ((block.length : ℤ) - (p + 1)).toNat
    if ci.1 = 0 ∧ dynUpper ≤ block.getD (ci.2 - 1).toNat 0 then (true, ci.1)
    else (false, ci.1)

/-- `detect_edges` of src/switch_interface/detection.py (lines 24–109).
Returns the `EdgeState` built at lines 101–108 and the optional press index.
`verbose`/`block_index` only affect logging and are omitted. -/
def detect_edges (block : List ℚ) (state : EdgeState)
    (upper_offset lower_offset : ℚ) (refractory_samples : ℤ) :
    EdgeState × Option ℕ :=
  let bias := biasUpdate block state.bias lower_offset
  let dynUpper := bias + upper_offset
  let dynLower := bias + lower_offset
  let pre := pressSearch block state.prev_sample dynUpper dynLower state.armed state.cooldown
  let post := afterPress block dynUpper refractory_samples pre.2.2 (pre.1, pre.2.1)
  ({ armed := post.1
     cooldown := post.2
     prev_sample := if block.length ≠ 0 then block.getLast?.getD state.prev_sample
       else state.prev_sample
     bias := bias },
   pre.2.2)

/-- Line 45 of detection.py assigns `state.bias = ...` on the dataclass passed
in by the caller: this is the content of the caller's `EdgeState` object after
`detect_edges` returns (its one in-place mutation). -/
def detect_edges_inputStateAfter (block : List ℚ) (state : EdgeState)
    (upper_offset lower_offset : ℚ) (refractory_samples : ℤ) : EdgeState :=
  { state with bias := biasUpdate block state.bias lower_offset }

/-- Lines 162–163 of detection.py: `listen` raises
`ValueError("upper_offset must be > lower_offset (both negative values)")`
when `upper_offset <= lower_offset`, before opening the audio stream. -/
def listen_validate (upper_offset lower_offset : ℚ) : Except String Unit :=
  if upper_offset ≤ lower_offset then
    Except.error "upper_offset must be > lower_offset (both negative values)"
  else Except.ok ()

end SwitchInterface

namespace Myproject

open SwitchInterface (EdgeState listMean crossingAt firstCrossingFrom)

/-- Python slice start for `crossings[offset:]` (src/myproject/detection.py
line 52); a negative offset wraps as in Python. -/
def sliceStart (n : ℕ) (offset : ℤ) : ℕ :=
  if offset < 0 then ((n : ℤ) + offset).toNat else min offset.toNat n

/-- `detect_edges` of src/myproject/detection.py (lines 17–69).  Returns the
new `EdgeState` and `press_index is not None`.  The press index is ℤ because
the source computes `idxs[0] + offset` with a Python int offset. -/
def detect_edges (block : List ℚ) (state : EdgeState)
    (upper_offset lower_offset : ℚ) (refractory_samples : ℤ) :
    EdgeState × Bool :=
  let bias :=
    if state.armed then (995 / 1000) * state.bias + (5 / 1000) * listMean block
    else state.bias
  let dynUpper := bias + upper_offset
  let dynLower := bias + lower_offset
  let n : ℕ := block.length
  let samples := state.prev_sample :: block
  -- lines 46–59
  let pre : Bool × ℤ × Option ℤ :=
    if state.armed then
      (true, state.cooldown,
       (firstCrossingFrom samples dynUpper dynLower n 0).map (fun j => (j : ℤ)))
    else
      if (n : ℤ) ≤ state.cooldown then
        (false, state.cooldown - n, none)
      else
        let s := sliceStart n state.cooldown
        (true, state.cooldown,
         (firstCrossingFrom samples dynUpper dynLower n s).map
           (fun j => ((j : ℤ) - s) + state.cooldown))
  -- lines 61–66
  let post : Bool × ℤ :=
    match pre.2.2 with
    | none => (pre.1, pre.2.1)
    | some p =>
      let cd := refractory_samples - ((n : ℤ) - p - 1)
      if cd ≤ 0 then (true, 0) else (false, cd)
  ({ armed := post.1
     cooldown := post.2
     prev_sample := if n ≠ 0 then block.getLast?.getD state.prev_sample else state.prev_sample
     bias := bias },
   pre.2.2.isSome)

end Myproject

namespace SwitchInterface

/-- Python truthiness of the press value in `if pressed:`
(auto_calibration.py line 167): `None` and `0` are both falsy, so a press
reported at intra-block offset 0 counts as "no press" here. -/
def pyTruthy : Option ℕ → Bool
  | none => false
  | some k => decide (k ≠ 0)

/-- `refractory = math.ceil(debounce_ms / 1000 * fs)`
(auto_calibration.py line 160). -/
def refractoryOf (debounce_ms fs : ℕ) : ℤ :=
  ⌈((debounce_ms * fs : ℕ) : ℚ) / 1000⌉

/-- The block loop of `_memoised_count` (auto_calibration.py lines 164–169):
`for start in range(0, len(samples), block)` driving `detect_edges` and
appending `start` when `pressed` is truthy.  Fuel-based: with fuel
`samples.length + 1` and a positive block size the fuel never runs out
(Python raises ValueError on a zero `range` step). -/
def replayGo (upper lower : ℚ) (refractory : ℤ) (block : ℕ) :
    ℕ → List ℚ → ℕ → EdgeState → List ℕ
  | 0, _, _, _ => []
  | fuel + 1, rest, start, st =>
    if rest.isEmpty then []
    else
      let blk := rest.take block
      let res := detect_edges blk st upper lower refractory
      (if pyTruthy res.2 then [start] else []) ++
        replayGo upper lower refractory block fuel (rest.drop block) (start + block) res.1

/-- `_memoised_count` of auto_calibration.py (lines 146–170): replays the full
clip from `EdgeState(armed=True, cooldown=0)` and collects the recorded
indices.  The `samples.tobytes()` / `np.frombuffer` round trip of
`_count_events` is the identity on the sample values and is not modelled
separately. -/
def _memoised_count (samples : List ℚ) (fs : ℕ) (upper lower : ℚ)
    (debounce_ms : ℕ) (block : ℕ) : List ℕ :=
  replayGo upper lower (refractoryOf debounce_ms fs) block
    (samples.length + 1) samples 0 ⟨true, 0, 0, 0⟩

/-- `_count_events` of auto_calibration.py (lines 125–143): hashable-key
wrapper around `_memoised_count`; the default block size is 64. -/
def _count_events (samples : List ℚ) (fs : ℕ) (upper lower : ℚ)
    (debounce_ms : ℕ) (block : ℕ := 64) : List ℕ :=
  _memoised_count samples fs upper lower debounce_ms block

/-- Same loop as `replayGo` but recording, for every block, the pair
(block start index, press index reported by `detect_edges`); used to state
what the replay keeps and what it drops. -/
def replayTrace (upper lower : ℚ) (refractory : ℤ) (block : ℕ) :
    ℕ → List ℚ → ℕ → EdgeState → List (ℕ × Option ℕ)
  | 0, _, _, _ => []
  | fuel + 1, rest, start, st =>
    if rest.isEmpty then []
    else
      let blk := rest.take block
      let res := detect_edges blk st upper lower refractory
      (start, res.2) ::
        replayTrace upper lower refractory block fuel (rest.drop block) (start + block) res.1

/-- The per-block press trace of the offline replay over a whole clip. -/
def pressTrace (samples : List ℚ) (fs : ℕ) (upper lower : ℚ)
    (debounce_ms : ℕ) (block : ℕ) : List (ℕ × Option ℕ) :=
  replayTrace upper lower (refractoryOf debounce_ms fs) block
    (samples.length + 1) samples 0 ⟨true, 0, 0, 0⟩

/-! Embedding of auto_calibration.py's numpy/scipy helpers.  All of them are
structural recursions so that concrete runs reduce inside the kernel. -/

/-- Insertion step of an ascending sort. -/
def insertSorted (x : ℚ) : List ℚ → List ℚ
  | [] => [x]
  | y :: ys => if x ≤ y then x :: y :: ys else y :: insertSorted x ys

/-- `np.sort`: ascending sort of the sample values. -/
def npSort (xs : List ℚ) : List ℚ :=
  xs.foldr insertSorted []

/-- `np.quantile(xs, 0.80)` with numpy's default linear interpolation:
position `0.8·(n−1)` between the order statistics.  Only meaningful for
nonempty input (numpy raises on an empty array; callers check). -/
def npQuantile80 (xs : List ℚ) : ℚ :=
  let s := npSort xs
  let h : ℚ := (8 / 10) * ((xs.length : ℚ) - 1)
  let i : ℕ := (⌊h⌋).toNat
  s.getD i 0 + (h - ⌊h⌋) * (s.getD (i + 1) 0 - s.getD i 0)

/-- `np.median`: middle order statistic, or the mean of the two middle ones
for even length (meaningful for nonempty input only). -/
def npMedian (xs : List ℚ) : ℚ :=
  let s := npSort xs
  let n := xs.length
  if n % 2 = 1 then s.getD (n / 2) 0
  else (s.getD (n / 2 - 1) 0 + s.getD (n / 2) 0) / 2

/-- `np.min` of a nonempty array (0 as a junk value on empty input, which the
callers exclude). -/
def npMin : List ℚ → ℚ
  | [] => 0
  | h :: t => t.foldl min h

/-- Index clamping of `scipy.ndimage`'s `mode="nearest"`. -/
def clampIdx (n : ℕ) (j : ℤ) : ℕ :=
  (min (max j 0) ((n : ℤ) - 1)).toNat

/-- `scipy.ndimage.uniform_filter1d(xs, size, mode="nearest")`:
`out[i] = mean(xs[i + k - size//2] for k < size)` with edge replication. -/
def uniformFilter1dNearest (xs : List ℚ) (size : ℕ) : List ℚ :=
  let n := xs.length
  (List.range n).map (fun i =>
    (((List.range size).map
        (fun k => xs.getD (clampIdx n ((i : ℤ) + k - (size : ℤ) / 2)) 0)).sum) / size)

/-- `_rolling_baseline` of auto_calibration.py (lines 64–81).  Errors model
the source's `ValueError("fs must be > 0")` and numpy's error on taking a
quantile of an empty array; the `raw.ndim != 1` raise cannot fire on a 1-D
list model. -/
def _rolling_baseline (raw : List ℚ) (fs : ℕ) : Except String (List ℚ) :=
  let win := fs
  if win = 0 then Except.error "fs must be > 0"
  else if raw.length < win then
    if raw.length = 0 then Except.error "zero-size array to reduction operation"
    else Except.ok (List.replicate raw.length (npQuantile80 raw))
  else
    let m := raw.length - win + 1
    let base := (List.range m).map (fun i => npQuantile80 ((raw.drop i).take win))
    let base2 := uniformFilter1dNearest base fs
    Except.ok ((List.replicate (win - 1) (base2.headD 0) ++ base2).take raw.length)

/-- Plateau scan of scipy's `_local_maxima_1d`: first `j ≥ j₀` with
`j ≥ i_max` or `x[j] ≠ xi`.  Fuel-based (fuel `x.length` suffices). -/
def plateauEnd (x : List ℚ) (iMax : ℕ) (xi : ℚ) : ℕ → ℕ → ℕ
  | 0, j => j
  | fuel + 1, j =>
    if j < iMax ∧ x.getD j 0 = xi then plateauEnd x iMax xi fuel (j + 1) else j

/-- Main scan of scipy's `_local_maxima_1d`: strictly-rising left edge,
plateau of equal values, strictly-falling right edge; records the plateau
midpoint and resumes after the plateau. -/
def localMaximaGo (x : List ℚ) (iMax : ℕ) : ℕ → ℕ → List ℕ
  | 0, _ => []
  | fuel + 1, i =>
    if i < iMax then
      if x.getD (i - 1) 0 < x.getD i 0 then
        let iAhead := plateauEnd x iMax (x.getD i 0) x.length (i + 1)
        if x.getD iAhead 0 < x.getD i 0 then
          (i + (iAhead - 1)) / 2 :: localMaximaGo x iMax fuel (iAhead + 1)
        else localMaximaGo x iMax fuel (i + 1)
      else localMaximaGo x iMax fuel (i + 1)
    else []

/-- All local maxima (plateau midpoints) of `x`, ascending. -/
def localMaxima (x : List ℚ) : List ℕ :=
  localMaximaGo x (x.length - 1) x.length 1

/-- Ascending argsort of a value list, as numpy's `argsort` used by scipy's
`_select_by_peak_distance`.  numpy's default sort leaves the order of equal
values unspecified; the model resolves ties by original position. -/
def argInsert (vals : List ℚ) (i : ℕ) : List ℕ → List ℕ
  | [] => [i]
  | j :: js =>
    if vals.getD i 0 < vals.getD j 0 ∨ (vals.getD i 0 = vals.getD j 0 ∧ i < j) then
      i :: j :: js
    else j :: argInsert vals i js

def argsortStable (vals : List ℚ) : List ℕ :=
  (List.range vals.length).foldr (argInsert vals) []

/-- Leftward removal loop of `_select_by_peak_distance`:
`while 0 <= k and peaks[j] - peaks[k] < distance: keep[k] = 0; k -= 1`. -/
def markLeft (peaks : List ℕ) (distance : ℕ) (pj : ℤ) : ℕ → ℤ → List Bool → List Bool
  | 0, _, keep => keep
  | fuel + 1, k, keep =>
    if 0 ≤ k ∧ pj - (peaks.getD k.toNat 0 : ℤ) < distance then
      markLeft peaks distance pj fuel (k - 1) (keep.set k.toNat false)
    else keep

/-- Rightward removal loop of `_select_by_peak_distance`. -/
def markRight (peaks : List ℕ) (distance : ℕ) (pj : ℤ) (m : ℕ) :
    ℕ → ℕ → List Bool → List Bool
  | 0, _, keep => keep
  | fuel + 1, k, keep =>
    if k < m ∧ ((peaks.getD k 0 : ℤ) - pj) < distance then
      markRight peaks distance pj m fuel (k + 1) (keep.set k false)
    else keep

/-- `_select_by_peak_distance(peaks, priority, distance)`: walk the peaks from
highest to lowest priority, each surviving peak removing its neighbours
closer than `distance`. -/
def selectByPeakDistance (peaks : List ℕ) (priority : List ℚ) (distance : ℕ) :
    List Bool :=
  let m := peaks.length
  (argsortStable priority).reverse.foldl
    (fun keep j =>
      if keep.getD j false = false then keep
      else
        let pj : ℤ := peaks.getD j 0
        let keep2 := markLeft peaks distance pj m ((j : ℤ) - 1) keep
        markRight peaks distance pj m m (j + 1) keep2)
    (List.replicate m true)

/-- `scipy.signal.find_peaks(x, distance=d)` restricted to what
auto_calibration.py uses: local maxima filtered by minimal distance.
`distance < 1` raises in scipy. -/
def find_peaks (x : List ℚ) (distance : ℕ) : Except String (List ℕ) :=
  if distance < 1 then
    Except.error "distance must be greater or equal to 1"
  else
    let peaks := localMaxima x
    let keep := selectByPeakDistance peaks (peaks.map (fun p => x.getD p 0)) distance
    Except.ok ((peaks.zip keep).filterMap (fun pk => if pk.2 then some pk.1 else none))

/-- `_choose_thresholds` of auto_calibration.py (lines 84–117): absolute
thresholds from the trough depth below the rolling baseline
(`int(0.020 * fs)` is the peak-finder distance). -/
def _choose_thresholds (raw baseline : List ℚ) (fs : ℕ) :
    Except String (ℚ × ℚ) := do
  let baseline_med := npMedian baseline
  let residual := List.zipWith (fun a b => a - b) raw baseline
  let trough_idx ← find_peaks (residual.map (fun r => -r)) (fs * 2 / 100)
  let troughs := if trough_idx.length ≠ 0 then trough_idx.map (fun i => raw.getD i 0)
    else [npMin raw]
  let depth := baseline_med - npMedian troughs
  let upper := baseline_med - (40 / 100) * depth
  let lower := baseline_med - (70 / 100) * depth
  let lower := if upper - lower < (25 / 100) * depth then upper - (25 / 100) * depth
    else lower
  return (upper, lower)

/-- `_has_duplicates(events, db_ms, fs)` (auto_calibration.py lines 120–122):
`min_gap = db_ms * fs // 1000`, true when some adjacent pair is closer. -/
def _has_duplicates (events : List ℕ) (db_ms fs : ℕ) : Bool :=
  let min_gap := db_ms * fs / 1000
  (events.zip events.tail).any (fun ab => decide ((ab.2 : ℤ) - (ab.1 : ℤ) < (min_gap : ℤ)))

/-- The `score` lambda of calibrate (line 203):
`abs(len(ev) - (target_presses or len(ev)))`.  Note Python's `or` treats a
target of 0 as falsy, so a zero target scores like `None`. -/
def score (target_presses : Option ℕ) (ev : List ℕ) : ℕ :=
  (((ev.length : ℤ)) -
    (match target_presses with
     | some t => if t = 0 then (ev.length : ℤ) else (t : ℤ)
     | none => (ev.length : ℤ))).natAbs

/-- `db_list = range(10, 61, 2)` (line 200). -/
def dbList : List ℕ :=
  (List.range 26).map (fun k => 10 + 2 * k)

/-- Phase-1 loop over `db_list[1:]` when a target press count is given
(lines 205–217): first exact match wins, otherwise the smallest error seen
(carried as `(best_db, best_events, best_err)`). -/
def phase1TargetGo (samples : List ℚ) (fs : ℕ) (u l : ℚ) (t : ℕ) :
    List ℕ → ℕ × List ℕ × ℕ → ℕ × List ℕ
  | [], best => (best.1, best.2.1)
  | d :: ds, best =>
    let ev := _count_events samples fs u l d
    let err := score (some t) ev
    if err = 0 then (d, ev)
    else if err < best.2.2 then phase1TargetGo samples fs u l t ds (d, ev, err)
    else phase1TargetGo samples fs u l t ds best

/-- Phase-1 loop when no target is given (lines 226–232): first debounce
whose count stays within 98% of the 10 ms reference count. -/
def phase1NoneGo (samples : List ℚ) (fs : ℕ) (u l : ℚ) (refn : ℕ) :
    List ℕ → ℕ × List ℕ → ℕ × List ℕ
  | [], best => best
  | d :: ds, best =>
    let ev := _count_events samples fs u l d
    if (98 / 100 : ℚ) ≤ (ev.length : ℚ) / (refn : ℚ) then (d, ev)
    else phase1NoneGo samples fs u l refn ds best

/-- Phase-2 hysteresis tweak (lines 235–245): four iterations of
`scale *= 1.15**direction`, keeping a scaled threshold pair when it matches
the target exactly (stop) or improves the score. -/
def phase2Go (samples : List ℚ) (fs : ℕ) (db t : ℕ) (direction : ℤ) :
    ℕ → ℚ → ℚ × ℚ × List ℕ → ℚ × ℚ × List ℕ
  | 0, _, cur => cur
  | it + 1, scale, cur =>
    let scale2 := scale * (if direction = 1 then (23 / 20 : ℚ) else (20 / 23 : ℚ))
    let ev := _count_events samples fs (cur.1 * scale2) (cur.2.1 * scale2) db
    if ev.length = t then (cur.1 * scale2, cur.2.1 * scale2, ev)
    else
      let cur2 :=
        if score (some t) ev < score (some t) cur.2.2 then
          (cur.1 * scale2, cur.2.1 * scale2, ev)
        else cur
      phase2Go samples fs db t direction it scale2 cur2

/-- Phase-3 de-duplication loop (lines 248–250):
`while _has_duplicates(...) and best_db < 60: best_db += 2; recount`.
Fuel-based; fuel 30 is enough from any debounce in `db_list` since the
debounce grows by 2 toward the 60 cap. -/
def phase3Go (samples : List ℚ) (fs : ℕ) (u l : ℚ) :
    ℕ → List ℕ → ℕ → List ℕ × ℕ
  | 0, ev, db => (ev, db)
  | fuel + 1, ev, db =>
    if _has_duplicates ev db fs ∧ db < 60 then
      phase3Go samples fs u l fuel (_count_events samples fs u l (db + 2)) (db + 2)
    else (ev, db)

/-- The `CalibResult` dataclass (auto_calibration.py lines 44–58).
`baseline_var` is the square of the source's `baseline_std` (a float obtained
through `sqrt`), with `none` modelling the NaN of an empty idle region;
`min_gap = none` models the source's `float("inf")`. -/
structure CalibResult where
  events : List ℕ
  upper_offset : ℚ
  lower_offset : ℚ
  debounce_ms : ℕ
  samplerate : ℕ
  baseline_var : Option ℚ
  min_gap : Option ℚ
  calib_ok : Bool
deriving DecidableEq, Repr

/-- The idle mask of the diagnostics block (lines 253–258): position `i` stays
`True` unless some event's ±pad window `[max(0, ev-pad), min(n, ev+pad))`
covers it. -/
def idleMask (n pad : ℕ) (events : List ℕ) : List Bool :=
  (List.range n).map (fun i =>
    events.all (fun ev => decide (i < ev - pad ∨ ev + pad ≤ i)))

/-- Population variance (`np.std` squared, ddof 0) of a nonempty list. -/
def listVariance (xs : List ℚ) : ℚ :=
  listMean (xs.map (fun x => (x - listMean xs) ^ 2))

/-- Minimum of adjacent differences (`np.diff(...).min()`), for ≥ 2 events. -/
def minDiff (events : List ℕ) : ℤ :=
  let diffs := (events.zip events.tail).map (fun ab => (ab.2 : ℤ) - (ab.1 : ℤ))
  match diffs with
  | [] => 0
  | h :: t => t.foldl min h

/-- `calibrate(samples, fs, target_presses=...)` of auto_calibration.py
(lines 176–307), with `verbose` (logging only) omitted.  Errors propagate
from `_rolling_baseline` and the scipy peak finder.  The source's
`calib_ok` conjunct `depth_med > 3 * baseline_std` is expressed as
`0 < depth_med ∧ 9 · baseline_var < depth_med²`, its square (std = √var ≥ 0);
a NaN `baseline_std` makes the source comparison false, matched by the
`idle_mask.any()` conjunct short-circuiting. -/
def calibrate (samples : List ℚ) (fs : ℕ) (target_presses : Option ℕ) :
    Except String CalibResult :=
  match _rolling_baseline samples fs with
  | Except.error e => Except.error e
  | Except.ok baseline_vec =>
  match _choose_thresholds samples baseline_vec fs with
  | Except.error e => Except.error e
  | Except.ok ul =>
  let baseline_med := npMedian baseline_vec
  let u_off := ul.1 - baseline_med
  let l_off := ul.2 - baseline_med
  -- Phase 1: choose debounce
  let best0 := _count_events samples fs u_off l_off 10
  let best :=
    match target_presses with
    | some t =>
      phase1TargetGo samples fs u_off l_off t dbList.tail (10, best0, score (some t) best0)
    | none =>
      let ref := _count_events samples fs u_off l_off 10
      let refn := max 1 ref.length
      phase1NoneGo samples fs u_off l_off refn dbList.tail (10, best0)
  -- Phase 2: one hysteresis tweak if still off
  let tweaked :=
    match target_presses with
    | some t =>
      if best.2.length ≠ t then
        let direction : ℤ := if best.2.length < t then 1 else -1
        phase2Go samples fs best.1 t direction 4 1 (u_off, l_off, best.2)
      else (u_off, l_off, best.2)
    | none => (u_off, l_off, best.2)
  -- Phase 3: ensure no double-fires
  let final := phase3Go samples fs tweaked.1 tweaked.2.1 30 tweaked.2.2 best.1
  -- Diagnostics
  let pad := fs * 5 / 100
  let mask := idleMask samples.length pad final.1
  let residual := List.zipWith (fun a b => a - b) samples baseline_vec
  let idle := (residual.zip mask).filterMap (fun rb => if rb.2 then some rb.1 else none)
  let baseline_var := if mask.any id then some (listVariance idle) else none
  let min_gap : Option ℚ :=
    if final.1.length ≤ 1 then none else some ((minDiff final.1 : ℚ) / (fs : ℚ))
  match find_peaks (residual.map (fun r => -r)) (fs * 2 / 100) with
  | Except.error e => Except.error e
  | Except.ok trough_idx =>
  let troughs := if trough_idx.length ≠ 0 then trough_idx.map (fun i => samples.getD i 0)
    else [npMin samples]
  let baseline_vals := if trough_idx.length ≠ 0 then
      trough_idx.map (fun i => baseline_vec.getD i 0)
    else [npMedian baseline_vec]
  let depth_med := npMedian (List.zipWith (fun a b => a - b) baseline_vals troughs)
  let target_events := match target_presses with
    | some t => t
    | none => final.1.length
  let calib_ok := mask.any id &&
    (match baseline_var with
     | some v => decide (0 < depth_med ∧ 9 * v < depth_med ^ 2)
     | none => false) &&
    decide ((((final.1.length : ℤ) - (target_events : ℤ)).natAbs : ℚ) ≤
      (1 / 10) * (target_events : ℚ))
  Except.ok
    { events := final.1
      upper_offset := tweaked.1
      lower_offset := tweaked.2.1
      debounce_ms := final.2
      samplerate := fs
      baseline_var := baseline_var
      min_gap := min_gap
      calib_ok := calib_ok }

/-- A 192-sample clip at 5400 Hz: all zeros except dips to −3 at indices 65
(block 1, offset 1) and 134 (block 2, offset 6).  Replayed with 64-sample
blocks both presses are found and recorded as the block starts 64 and 128. -/
def clipC4 : List ℚ :=
  (List.range 192).map (fun i => if i = 65 ∨ i = 134 then (-3 : ℚ) else 0)

theorem cdLoop_of_nonpos (i : ℤ) (fuel : ℕ) {c : ℤ} (h : c ≤ 0) :
    cdLoop c i fuel = (c, i) := by
  cases fuel with
  | zero => rfl
  | succ f => rw [cdLoop, if_neg (by omega)]

theorem cdLoop_fst_nonneg (fuel : ℕ) :
    ∀ c i : ℤ, 0 ≤ c → 0 ≤ (cdLoop c i fuel).1 := by
  induction fuel with
  | zero => intro c i h; exact h
  | succ f ih =>
    intro c i h
    rw [cdLoop]
    by_cases hc : 0 < c
    · rw [if_pos hc]; exact ih _ _ (by omega)
    · rw [if_neg hc]; exact h

theorem replayGo_eq_filterMap_trace (upper lower : ℚ) (refractory : ℤ)
    (block : ℕ) :
    ∀ (fuel : ℕ) (rest : List ℚ) (start : ℕ) (st : EdgeState),
      replayGo upper lower refractory block fuel rest start st =
        (replayTrace upper lower refractory block fuel rest start st).filterMap
          (fun sp => match sp.2 with
            | some k => if k = 0 then none else some sp.1
            | none => none) := by
  intro fuel
  induction fuel with
  | zero => intro rest start st; rfl
  | succ n ih =>
    intro rest start st
    rw [replayGo, replayTrace]
    by_cases h : rest.isEmpty
    · simp [h]
    · simp only [h, if_false, List.filterMap_cons]
      rw [ih]
      rcases hp : (detect_edges (rest.take block) st upper lower refractory).2 with _ | k
      · simp [pyTruthy]
      · by_cases hk : k = 0 <;> simp [pyTruthy, hk]

/-- Claim C10: for every state and parameters, calling `detect_edges` with an
empty 1-D block raises no error (the model is total; the source's only raise
is the ndim check, which a 1-D empty array passes), reports no press, and
returns a state equal to the input state: `armed`, `cooldown`, `prev_sample`
and `bias` are all unchanged. -/
theorem detect_edges_empty_block (st : EdgeState) (u l : ℚ) (r : ℤ) :
    detect_edges [] st u l r = (st, none) := by
  obtain ⟨armed, c, p, b⟩ := st
  cases armed
  · by_cases hc : (0 : ℤ) ≤ c
    · simp [detect_edges, pressSearch, afterPress, biasUpdate, hc]
    · have hcl : ∀ f, cdLoop c c f = (c, c) := fun f => cdLoop_of_nonpos _ _ (by omega)
      have hc0 : ¬(c = 0) := by omega
      simp [detect_edges, pressSearch, afterPress, biasUpdate, hc, hcl, hc0]
  · simp [detect_edges, pressSearch, afterPress, biasUpdate, firstCrossingFrom]

theorem afterPress_invariant (block : List ℚ) (dynUpper : ℚ) (r : ℤ) (hr : 0 ≤ r)
    (press : Option ℕ) (ac : Bool × ℤ)
    (hA : ac.1 = true → ac.2 = 0) (hC : 0 ≤ ac.2) :
    ((afterPress block dynUpper r press ac).1 = true →
        (afterPress block dynUpper r press ac).2 = 0) ∧
      0 ≤ (afterPress block dynUpper r press ac).2 := by
  rcases press with _ | p
  · exact ⟨hA, hC⟩
  · rw [afterPress]
    split
    · next h => exact ⟨fun _ => h.1, by simp [h.1]⟩
    · exact ⟨fun h => by simp at h, cdLoop_fst_nonneg _ _ _ hr⟩

theorem pressSearch_invariant (block : List ℚ) (prev dynUpper dynLower : ℚ)
    (armed : Bool) (c : ℤ) (hA : armed = true → c = 0) (hC : 0 ≤ c) :
    ((pressSearch block prev dynUpper dynLower armed c).1 = true →
        (pressSearch block prev dynUpper dynLower armed c).2.1 = 0) ∧
      0 ≤ (pressSearch block prev dynUpper dynLower armed c).2.1 := by
  cases armed
  · rw [pressSearch]
    simp only [Bool.false_eq_true, if_false]
    split
    · next h =>
      refine ⟨fun hh => by simp at hh, ?_⟩
      show (0 : ℤ) ≤ c - block.length
      omega
    · split
      · next h => exact ⟨fun _ => h.1, by simp [h.1]⟩
      · exact ⟨fun hh => by simp at hh, cdLoop_fst_nonneg _ _ _ hC⟩
  · rw [pressSearch]
    simp only [if_true]
    exact ⟨fun _ => hA rfl, by simp [hA rfl]⟩

/-- Claim C8: `detect_edges` preserves the detector-state invariant: if the
input state satisfies `armed = True ⇒ cooldown = 0` and `cooldown ≥ 0`, and
`refractory_samples ≥ 0`, then the returned state satisfies both as well. -/
theorem detect_edges_state_invariant (block : List ℚ) (st : EdgeState)
    (u l : ℚ) (r : ℤ)
    (hA : st.armed = true → st.cooldown = 0) (hC : 0 ≤ st.cooldown) (hr : 0 ≤ r) :
    ((detect_edges block st u l r).1.armed = true →
        (detect_edges block st u l r).1.cooldown = 0) ∧
      0 ≤ (detect_edges block st u l r).1.cooldown := by
  have hpre := pressSearch_invariant block st.prev_sample
    (biasUpdate block st.bias l + u) (biasUpdate block st.bias l + l) st.armed st.cooldown hA hC
  have hpost := afterPress_invariant block (biasUpdate block st.bias l + u) r hr
    (pressSearch block st.prev_sample (biasUpdate block st.bias l + u)
      (biasUpdate block st.bias l + l) st.armed st.cooldown).2.2
    ((pressSearch block st.prev_sample (biasUpdate block st.bias l + u)
      (biasUpdate block st.bias l + l) st.armed st.cooldown).1,
     (pressSearch block st.prev_sample (biasUpdate block st.bias l + u)
      (biasUpdate block st.bias l + l) st.armed st.cooldown).2.1)
    hpre.1 hpre.2
  exact hpost

/-- Claim C9: a falling edge straddling a block boundary is reported at
intra-block offset 0: if the detector is armed, its `prev_sample` (the last
sample of the previous block) is at or above the dynamic upper threshold and
the first sample of the next nonempty block is at or below the dynamic lower
threshold (both computed from the updated bias, as in the source), then the
call on that next block reports `some 0` — one press, and none besides it,
since the return type carries at most one press per call. -/
theorem detect_edges_boundary_press (block : List ℚ) (st : EdgeState)
    (u l : ℚ) (r : ℤ) (hA : st.armed = true) (hne : block ≠ [])
    (hprev : biasUpdate block st.bias l + u ≤ st.prev_sample)
    (hfirst : block.headD 0 ≤ biasUpdate block st.bias l + l) :
    (detect_edges block st u l r).2 = some 0 := by
  cases block with
  | nil => exact absurd rfl hne
  | cons b0 rest =>
    show (pressSearch (b0 :: rest) st.prev_sample _ _ st.armed st.cooldown).2.2 = some 0
    rw [pressSearch, hA, if_pos rfl]
    show firstCrossingFrom _ _ _ (rest.length + 1) 0 = some 0
    rw [firstCrossingFrom, List.drop_zero, List.range_succ_eq_map, List.find?_cons_of_pos]
    rw [crossingAt]
    simp only [List.getD_cons_zero, List.getD_cons_succ, Bool.and_eq_true, decide_eq_true_eq]
    exact ⟨hprev, by simpa using hfirst⟩

/-- Claim C6 (amended): the only side effect of `detect_edges` on the
`EdgeState` passed in is the in-place `state.bias` assignment of line 45:
`armed`, `cooldown` and `prev_sample` are untouched, and the mutated `bias`
equals the `bias` of the returned state. -/
theorem detect_edges_mutates_only_bias (block : List ℚ) (st : EdgeState)
    (u l : ℚ) (r : ℤ) :
    detect_edges_inputStateAfter block st u l r =
      { armed := st.armed, cooldown := st.cooldown, prev_sample := st.prev_sample
        bias := (detect_edges block st u l r).1.bias } :=
  rfl

/-- Claim C2 (amended): the two detectors update the baseline differently.
`myproject.detection.detect_edges` applies `bias ← 0.995·bias + 0.005·mean(block)`
exactly when armed and leaves `bias` unchanged otherwise;
`switch_interface.detection.detect_edges` applies
`bias ← 0.99·bias + 0.01·mean(valid)` over the samples above
`bias + lower_offset` whenever there are any, independently of `armed`. -/
theorem detect_edges_bias_update_rules (block : List ℚ) (st : EdgeState)
    (u l : ℚ) (r : ℤ) (hne : block ≠ []) :
    (Myproject.detect_edges block { st with armed := true } u l r).1.bias =
        (995 / 1000) * st.bias + (5 / 1000) * listMean block ∧
      (Myproject.detect_edges block { st with armed := false } u l r).1.bias = st.bias ∧
      (detect_edges block { st with armed := true } u l r).1.bias =
        (detect_edges block { st with armed := false } u l r).1.bias ∧
      (detect_edges block { st with armed := true } u l r).1.bias =
        biasUpdate block st.bias l :=
  ⟨rfl, rfl, rfl, rfl⟩

/-- Claim C7: the offline replay is deterministic — the event list is a
function of exactly `(samples, samplerate, upper_offset, lower_offset,
debounce_ms, blocksize)`: two runs on equal tuples return equal lists. -/
theorem offline_replay_deterministic (s₁ s₂ : List ℚ) (fs₁ fs₂ : ℕ)
    (u₁ u₂ l₁ l₂ : ℚ) (d₁ d₂ b₁ b₂ : ℕ)
    (hs : s₁ = s₂) (hfs : fs₁ = fs₂) (hu : u₁ = u₂) (hl : l₁ = l₂)
    (hd : d₁ = d₂) (hb : b₁ = b₂) :
    _count_events s₁ fs₁ u₁ l₁ d₁ b₁ = _count_events s₂ fs₂ u₂ l₂ d₂ b₂ := by
  rw [hs, hfs, hu, hl, hd, hb]

/-- Claim C1 (amended): for every press that `detect_edges` reports at a
NONZERO intra-block offset, the replay records the bare block start index
(`start`, not `start + press_offset`); presses reported at offset 0 are
dropped entirely, because `if pressed:` treats the integer 0 as falsy. -/
theorem replay_records_block_starts (samples : List ℚ) (fs : ℕ)
    (upper lower : ℚ) (debounce_ms block : ℕ) :
    _memoised_count samples fs upper lower debounce_ms block =
      (pressTrace samples fs upper lower debounce_ms block).filterMap
        (fun sp => match sp.2 with
          | some k => if k = 0 then none else some sp.1
          | none => none) :=
  replayGo_eq_filterMap_trace _ _ _ _ _ _ _ _

theorem phase3Go_no_duplicates_or_capped (samples : List ℚ) (fs : ℕ) (u l : ℚ) :
    ∀ (fuel : ℕ) (ev : List ℕ) (db : ℕ), 60 ≤ db + 2 * fuel →
      _has_duplicates (phase3Go samples fs u l fuel ev db).1
          (phase3Go samples fs u l fuel ev db).2 fs = false ∨
        60 ≤ (phase3Go samples fs u l fuel ev db).2 := by
  intro fuel
  induction fuel with
  | zero =>
    intro ev db h
    right
    simpa [phase3Go] using h
  | succ f ih =>
    intro ev db h
    rw [phase3Go]
    split
    · exact ih _ _ (by omega)
    · next hcond =>
      rcases Bool.eq_false_or_eq_true (_has_duplicates ev db fs) with hd | hd
      · right
        by_contra hlt
        exact hcond ⟨hd, by omega⟩
      · refine Or.inl ?_
        simpa using hd

/-- The de-duplication postcondition of `calibrate`: whatever it returns,
either the duplicate check passes for the chosen events and debounce
(every adjacent gap is at least `debounce_ms * fs // 1000` samples), or the
debounce reached the 60 ms cap and the loop gave up. -/
theorem calibrate_ok_no_duplicates (samples : List ℚ) (fs : ℕ)
    (tp : Option ℕ) (r : CalibResult) (hok : calibrate samples fs tp = Except.ok r) :
    _has_duplicates r.events r.debounce_ms fs = false ∨ 60 ≤ r.debounce_ms := by
  rw [calibrate] at hok
  rcases hbase : _rolling_baseline samples fs with e | baseline_vec
  · rw [hbase] at hok
    exact Except.noConfusion hok
  · simp only [hbase] at hok
    rcases hul : _choose_thresholds samples baseline_vec fs with e | ul
    · rw [hul] at hok
      exact Except.noConfusion hok
    · simp only [hul] at hok
      rcases hti : find_peaks ((List.zipWith (fun a b => a - b) samples baseline_vec).map
          (fun rr => -rr)) (fs * 2 / 100) with e | trough_idx
      · rw [hti] at hok
        exact Except.noConfusion hok
      · simp only [hti] at hok
        injection hok with h
        subst h
        exact phase3Go_no_duplicates_or_capped samples fs _ _ 30 _ _ (by omega)

/-- Claim C4 (amended): in the `CalibResult` returned by `calibrate`, as long
as the returned `debounce_ms` is below the 60 ms cap (where the
de-duplication loop gives up), every two adjacent event indices `a, b` obey
`b − a ≥ debounce_ms · samplerate // 1000` samples — the floor-divided gap
the source's `_has_duplicates` checks.  The claim's real-valued bound
`(b − a)/samplerate ≥ debounce_ms/1000` is strictly stronger and fails (see
the counterexample). -/
theorem calibrate_adjacent_gap (samples : List ℚ) (fs : ℕ) (tp : Option ℕ)
    (r : CalibResult) (hok : calibrate samples fs tp = Except.ok r)
    (hdb : r.debounce_ms < 60) (a b : ℕ)
    (hmem : (a, b) ∈ r.events.zip r.events.tail) :
    ((r.debounce_ms * fs / 1000 : ℕ) : ℤ) ≤ (b : ℤ) - (a : ℤ) := by
  rcases calibrate_ok_no_duplicates samples fs tp r hok with hd | hcap
  · simp only [_has_duplicates, List.any_eq_false, decide_eq_true_eq, not_lt] at hd
    exact hd (a, b) hmem
  · omega

end SwitchInterface

deriving instance DecidableEq for Except

section ConcreteRuns

/-! Concrete evaluations.  Batteries marks the `Rat` field operations
`@[irreducible]`, which only restricts elaborator-side unfolding (the kernel
ignores reducibility); these runs restore default reducibility locally so
`decide` can evaluate the embedded functions on concrete clips. -/

attribute [local semireducible] Rat.add Rat.mul Rat.inv Rat.sub Rat.ofScientific

namespace SwitchInterface

/-- Claim C1 (counterexample): on `[0,0,0,-3]` with block size 2 the press is
reported at intra-block offset 1 of the block starting at 2, yet the replay
records 2 — not `block_start_index + press_offset = 3`; and on `[0,0,-3,0]`
the press reported at offset 0 of the block starting at 2 is dropped
entirely (`if pressed:` with a 0 press index). -/
theorem replay_drops_press_offsets :
    _memoised_count [0, 0, 0, -3] 1000 (-1) (-2) 2 2 = [2] ∧
      (detect_edges [0, -3] ⟨true, 0, 0, 0⟩ (-1) (-2) 2).2 = some 1 ∧
      _memoised_count [0, 0, -3, 0] 1000 (-1) (-2) 1 2 = [] ∧
      (detect_edges [-3, 0] ⟨true, 0, 0, 0⟩ (-1) (-2) 1).2 = some 0 := by
  decide

/-- Claim C2 (counterexample): `switch_interface.detection.detect_edges`
updates the bias on a call with the detector NOT armed (the claim says the
bias field is then left unchanged), and it uses 0.99/0.01, not 0.995/0.005:
here an unarmed call turns bias 0 into 0.01·mean([1]) = 1/100.  The
`myproject` variant on the same input leaves the bias at 0. -/
theorem bias_updated_while_unarmed :
    (detect_edges [1] ⟨false, 5, 0, 0⟩ (-1 / 2) (-1) 3).1.bias = 1 / 100 ∧
      ¬(1 / 100 : ℚ) = 0 ∧
      (Myproject.detect_edges [1] ⟨false, 5, 0, 0⟩ (-1 / 2) (-1) 3).1.bias = 0 := by
  decide

/-- Claim C3: evaluation of the code at the failing input.  The detector
enters `detect_edges` with `armed = False`, `cooldown = 0`, bias 0, and a
block whose sample 2 is far above `dyn_upper = 1/50 − 1/2`; the claim (and
the spec's re-arm policy) require the returned state to be armed, but the
`idx > 0` guard at line 77 fails (`idx = cooldown = 0`), so the code returns
it still unarmed — and it can never re-arm from this state. -/
theorem rearm_stuck_at_zero_cooldown :
    detect_edges [2] ⟨false, 0, 0, 0⟩ (-1 / 2) (-1) 5 =
      (⟨false, 0, 2, 1 / 50⟩, none) := by
  decide

set_option maxRecDepth 200000 in
/-- Claim C4 (counterexample): on `clipC4` with fs 5400 and target 2,
`calibrate` returns debounce 12 ms and events 64 and 128, whose gap of 64
samples passes `_has_duplicates` (64 ≥ 12·5400//1000 = 64) but violates the
claimed bound: 64/5400 s < 12/1000 s. -/
theorem calibrate_gap_below_debounce :
    calibrate clipC4 5400 (some 2) =
      Except.ok
        { events := [64, 128], upper_offset := -6 / 5, lower_offset := -21 / 10,
          debounce_ms := 12, samplerate := 5400, baseline_var := none,
          min_gap := some (8 / 675), calib_ok := false } ∧
      ¬((128 - 64 : ℚ) / 5400 ≥ 12 / 1000) := by
  decide

set_option maxRecDepth 200000 in
/-- Witness for the amended Claim C4 theorem at the `clipC4` run. -/
theorem calibrate_adjacent_gap_witness :
    ((12 * 5400 / 1000 : ℕ) : ℤ) ≤ (128 : ℤ) - (64 : ℤ) :=
  calibrate_adjacent_gap clipC4 5400 (some 2)
    { events := [64, 128], upper_offset := -6 / 5, lower_offset := -21 / 10,
      debounce_ms := 12, samplerate := 5400, baseline_var := none,
      min_gap := some (8 / 675), calib_ok := false }
    (by decide) (by decide) 64 128 (by decide)

/-- Claim C5 (amended): only `listen` validates the offsets — it raises
`ValueError` (the repository defines no ConfigError class) exactly when
`upper_offset ≤ lower_offset`, before any streaming; `detect_edges` performs
no offset check and processes samples normally with
`upper_offset = lower_offset`, here even reporting a press, and `calibrate`
derives its own offsets and accepts none. -/
theorem offset_validation_listen_only (u l : ℚ) :
    (listen_validate u l =
        Except.error "upper_offset must be > lower_offset (both negative values)" ↔
      u ≤ l) ∧
      (detect_edges [-1] ⟨true, 0, 0, 0⟩ (-1 / 10) (-1 / 10) 5).2 = some 0 := by
  refine ⟨?_, by decide⟩
  rw [listen_validate]
  split
  · next h => simp [h]
  · next h => simp [h]

/-- Witness for the Claim C5 (amended) theorem at the spec's own test pair
`upper_offset = lower_offset = −0.1`. -/
theorem offset_validation_listen_only_witness :
    (listen_validate (-1 / 10) (-1 / 10) =
        Except.error "upper_offset must be > lower_offset (both negative values)" ↔
      (-1 / 10 : ℚ) ≤ -1 / 10) ∧
      (detect_edges [-1] ⟨true, 0, 0, 0⟩ (-1 / 10) (-1 / 10) 5).2 = some 0 :=
  offset_validation_listen_only (-1 / 10) (-1 / 10)

/-- Claim C5 (counterexample): `detect_edges` called with
`upper_offset = lower_offset = −0.1` raises nothing — it runs to completion,
processing the samples (the press at offset 0 and the refractory state show
the block was fully processed). -/
theorem equal_offsets_accepted :
    detect_edges [-1] ⟨true, 0, 0, 0⟩ (-1 / 10) (-1 / 10) 5 =
      (⟨false, 5, -1, 0⟩, some 0) := by
  decide

/-- Claim C6 (counterexample): the `EdgeState` dataclass passed into
`detect_edges` is NOT left unchanged — line 45 overwrites `state.bias` in
place whenever some sample exceeds `bias + lower_offset`. -/
theorem input_state_mutated :
    detect_edges_inputStateAfter [1] ⟨true, 0, 0, 0⟩ (-1 / 2) (-1) 1 ≠
      ⟨true, 0, 0, 0⟩ := by
  decide

/-- Witness for the Claim C7 determinism theorem on a concrete tuple. -/
theorem offline_replay_deterministic_witness :
    _count_events [0, 0, 0, -3] 1000 (-1) (-2) 2 2 =
      _count_events [0, 0, 0, -3] 1000 (-1) (-2) 2 2 :=
  offline_replay_deterministic [0, 0, 0, -3] [0, 0, 0, -3] 1000 1000
    (-1) (-1) (-2) (-2) 2 2 2 2 rfl rfl rfl rfl rfl rfl

/-- Witness for the Claim C8 invariant theorem: an armed state with zero
cooldown, a press in the block and positive refractory. -/
theorem detect_edges_state_invariant_witness :
    ((detect_edges [0, -3] ⟨true, 0, 0, 0⟩ (-1) (-2) 2).1.armed = true →
        (detect_edges [0, -3] ⟨true, 0, 0, 0⟩ (-1) (-2) 2).1.cooldown = 0) ∧
      0 ≤ (detect_edges [0, -3] ⟨true, 0, 0, 0⟩ (-1) (-2) 2).1.cooldown :=
  detect_edges_state_invariant [0, -3] ⟨true, 0, 0, 0⟩ (-1) (-2) 2
    (fun _ => rfl) (by decide) (by decide)

/-- Witness for the Claim C9 boundary theorem: prev_sample 0 from block N,
first sample −3 of block N+1, thresholds −1/−2 around bias 0. -/
theorem detect_edges_boundary_press_witness :
    (detect_edges [-3] ⟨true, 0, 0, 0⟩ (-1) (-2) 5).2 = some 0 :=
  detect_edges_boundary_press [-3] ⟨true, 0, 0, 0⟩ (-1) (-2) 5 rfl
    (by decide) (by decide) (by decide)

/-- Witness for the Claim C2 (amended) theorem at a nonempty block. -/
theorem detect_edges_bias_update_rules_witness :
    ([1] : List ℚ) ≠ [] ∧
      ((Myproject.detect_edges [1] ⟨true, 5, 0, 0⟩ (-1 / 2) (-1) 3).1.bias =
          (995 / 1000) * (0 : ℚ) + (5 / 1000) * listMean [1] ∧
        (Myproject.detect_edges [1] ⟨false, 5, 0, 0⟩ (-1 / 2) (-1) 3).1.bias = 0 ∧
        (detect_edges [1] ⟨true, 5, 0, 0⟩ (-1 / 2) (-1) 3).1.bias =
          (detect_edges [1] ⟨false, 5, 0, 0⟩ (-1 / 2) (-1) 3).1.bias ∧
        (detect_edges [1] ⟨true, 5, 0, 0⟩ (-1 / 2) (-1) 3).1.bias =
          biasUpdate [1] 0 (-1)) :=
  ⟨by decide, detect_edges_bias_update_rules [1] ⟨false, 5, 0, 0⟩ (-1 / 2) (-1) 3 (by decide)⟩

end SwitchInterface

end ConcreteRuns
